import Mathlib

/-!
Verification of the go-httpbin request handlers (handlers.go, util.go and
the response-shape declarations) against their natural-language
specification.

The handlers are shallowly embedded: every handler becomes a pure function
from an explicit request model to an explicit response model.  Go maps
(http.Header, url.Values) are modelled as association lists, Go's
nanosecond-denominated `time.Duration` as a natural number of nanoseconds,
and the stdlib pieces the handlers call (strconv parsers, strings.Contains,
net.SplitHostPort, the ResponseWriter state machine) as small executable
Lean functions, each marked as a stdlib model in its doc comment.  The
pseudo-random generator behind `/bytes` (math/rand) is abstracted as an
arbitrary byte function; `rnd.Read` always fills its whole buffer, which the
model keeps by constructing each chunk with exactly `BinaryChunkSize`
entries.
-/

namespace GoHttpbin

/-! ## Process-wide tunables (handlers.go, `var` block) -/

/-- Buffer length used for generating large blobs (handlers.go). -/
def BinaryChunkSize : Nat := 64 * 1024

/-- Go `time.Millisecond` in nanoseconds. -/
def millisecond : Nat := 1000000

/-- Go `time.Second` in nanoseconds. -/
def second : Nat := 1000000000

/-- Maximum execution time for the /delay endpoint:
`DelayMax = 10 * time.Second` (handlers.go). -/
def DelayMax : Nat := 10 * second

/-! ## Stdlib models: digit scanning, decimal parsing, substring search -/

/-- Value of a nonempty, all-digit character list; `none` otherwise.
Model of the digit scan shared by the strconv parsers. -/
def digitsVal : List Char → Option Nat
  | [] => none
  | l =>
    if l.all Char.isDigit then
      some (l.foldl (fun a c => 10 * a + (c.toNat - 48)) 0)
    else none

/-- Modelled from stdlib strconv.Atoi: optional sign followed by digits,
`none` on anything else (64-bit range clamping is not modelled; the
handlers only reach this with route-constrained digit strings or with
query values whose parse failure they check). -/
def goAtoi (s : String) : Option Int :=
  match s.data with
  | '-' :: rest => (digitsVal rest).map (fun n => -(n : Int))
  | '+' :: rest => (digitsVal rest).map (fun n => (n : Int))
  | l => (digitsVal l).map (fun n => (n : Int))

/-- strconv.ParseInt with its error discarded, as BytesHandler uses it:
a syntax failure leaves the zero value 0. -/
def goParseIntDef (s : String) : Int := (goAtoi s).getD 0

/-- Split a character list at every dot. -/
def splitDot : List Char → List (List Char)
  | [] => [[]]
  | c :: cs =>
    let rest := splitDot cs
    if c = '.' then [] :: rest
    else
      match rest with
      | [] => [[c]]
      | h :: t => (c :: h) :: t

/-- Modelled from stdlib strconv.ParseFloat, restricted to the decimal
shapes the routes admit (`digits` or `digits.digits`): the exact rational
value of the literal.  The Go code computes with binary floating point;
the model keeps exact decimal arithmetic. -/
def goParseDecimal (s : String) : Option ℚ :=
  match splitDot s.data with
  | [i] => (digitsVal i).map (fun n => mkRat n 1)
  | [i, f] =>
    match digitsVal i, digitsVal f with
    | some ni, some nf => some (mkRat (ni * 10 ^ f.length + nf) (10 ^ f.length))
    | _, _ => none
  | _ => none

/-- Does the list start with the given pattern (stdlib model)? -/
def hasPrefixList : List Char → List Char → Bool
  | _, [] => true
  | [], _ :: _ => false
  | a :: as, b :: bs => a == b && hasPrefixList as bs

/-- Does the pattern occur inside the list (stdlib model)? -/
def hasSubstr : List Char → List Char → Bool
  | l, p =>
    hasPrefixList l p ||
      (match l with
       | [] => false
       | _ :: as => hasSubstr as p)

/-- Modelled from stdlib strings.Contains. -/
def strContains (s sub : String) : Bool := hasSubstr s.data sub.data

/-- Characters before the last colon: the host part net.SplitHostPort
returns, "" when there is no colon (the handlers discard the error, so the
origin stays the zero value "").  Bracketed IPv6 literals keep their
brackets in this simplified stdlib model; no claim depends on the value. -/
def beforeLastColon : List Char → List Char
  | [] => []
  | c :: cs => if cs.contains ':' then c :: beforeLastColon cs else []

/-- Host part of `h, _, _ := net.SplitHostPort(addr)` (stdlib model). -/
def splitHost (addr : String) : String := String.mk (beforeLastColon addr.data)

/-! ## util.go / structs.go: request projections and envelope fragments -/

/-- A request as the handlers read it: remote address, the header multimap,
the parsed query multimap and the raw body.  Header keys are taken as
already canonicalized; both maps are association lists. -/
structure Request where
  remoteAddr : String
  headers : List (String × List String)
  query : List (String × List String)
  body : String
  deriving DecidableEq

/-- Go http.Header.Get on the model: first value of the matching key, ""
when the key is absent (stdlib model). -/
def headerGet (h : List (String × List String)) (k : String) : String :=
  match h.find? (fun p => p.1 == k) with
  | some p => p.2.headD ""
  | none => ""

/-- getHeaders (util.go): the first value of every header name. -/
def getHeaders (h : List (String × List String)) : List (String × String) :=
  h.map fun p => (p.1, p.2.headD "")

/-- A flattened query value: url.Values stores `map[string][]string`, and
flattenValues stores either the single string or the whole slice into the
`map[string]interface` result. -/
inductive FlatValue where
  | scalar (v : String)
  | list (vs : List String)
  deriving DecidableEq

/-- flattenValues (util.go): a one-element slice becomes its element, any
other slice is kept whole, key by key. -/
def flattenValues (uv : List (String × List String)) : List (String × FlatValue) :=
  uv.map fun kv =>
    (kv.1,
      match kv.2 with
      | [v] => FlatValue.scalar v
      | vs => FlatValue.list vs)

/-! ## Redirect family (handlers.go) -/

/-- A bare redirect response: the status line and the Location header. -/
structure RedirectResponse where
  status : Nat
  location : String
  deriving DecidableEq

/-- Location computed by RedirectHandler (handlers.go): "/get" when the
route counter is at most 1, otherwise "/redirect/" with the decremented
counter. -/
def redirectLocation (n : Nat) : String :=
  if n ≤ 1 then "/get" else "/redirect/" ++ toString (n - 1)

/-- RedirectHandler (handlers.go): sets Location and writes 302 Found.
The route pattern constrains the counter to digits, so it is a Nat. -/
def RedirectHandler (n : Nat) : RedirectResponse :=
  { status := 302, location := redirectLocation n }

/-- AbsoluteRedirectHandler (handlers.go): the same chain against
"http://" + host, ending at "/get". -/
def AbsoluteRedirectHandler (host : String) (n : Nat) : RedirectResponse :=
  { status := 302
    location := "http://" ++ host ++
      (if n ≤ 1 then "/get" else "/absolute-redirect/" ++ toString (n - 1)) }

/-- The redirect step on the counter: counters at most 1 go to /get
(`none`), larger counters go to the decremented counter. -/
def redirectNext (n : Nat) : Option Nat :=
  if n ≤ 1 then none else some (n - 1)

/-- Number of 302 hops until /get is reached, iterating the redirect step
from counter n. -/
def redirectHops (n : Nat) : Nat :=
  if n ≤ 1 then 1 else 1 + redirectHops (n - 1)
termination_by n
decreasing_by omega

/-! ## Get / Cache / Delay (handlers.go) -/

/-- getResponse (structs.go): the header and origin fragments, the URL
field and the flattened args.  The composite literal in GetHandler never
assigns URL, so it keeps Go's zero value "". -/
structure GetResponse where
  headers : List (String × String)
  origin : String
  url : String
  args : List (String × FlatValue)
  deriving DecidableEq

/-- The envelope GetHandler builds (handlers.go). -/
def getResponseOf (r : Request) : GetResponse :=
  { headers := getHeaders r.headers
    origin := splitHost r.remoteAddr
    url := ""
    args := flattenValues r.query }

/-- A finished response: status line and an optional JSON envelope body. -/
structure HttpResult (α : Type) where
  status : Nat
  body : Option α
  deriving DecidableEq

/-- GetHandler (handlers.go): 200 with the getResponse envelope. -/
def GetHandler (r : Request) : HttpResult GetResponse :=
  { status := 200, body := some (getResponseOf r) }

/-- CacheHandler (handlers.go): 304 with an empty body when the request
carries a nonempty If-Modified-Since or If-None-Match header, otherwise
exactly GetHandler. -/
def CacheHandler (r : Request) : HttpResult GetResponse :=
  if headerGet r.headers "If-Modified-Since" ≠ "" ∨
      headerGet r.headers "If-None-Match" ≠ "" then
    { status := 304, body := none }
  else GetHandler r

/-- A delayed response: how long the handler slept (nanoseconds) and the
response it then wrote. -/
structure DelayResult where
  sleepNs : Nat
  response : HttpResult GetResponse
  deriving DecidableEq

/-- DelayHandler (handlers.go): the route value n (digits with an optional
fraction, parse failure ignored) is truncated to milliseconds
(`time.Millisecond * time.Duration(n*1000)`), capped at DelayMax, slept,
and then GetHandler answers. -/
def DelayHandler (nStr : String) (r : Request) : DelayResult :=
  let n : ℚ := (goParseDecimal nStr).getD 0
  let duration := millisecond * (Int.floor (n * 1000)).toNat
  let duration := if duration > DelayMax then DelayMax else duration
  { sleepNs := duration, response := GetHandler r }

/-! ## ResponseWriter model (stdlib net/http)

Header().Set mutates the header map at any time, but only the map's state
at the moment the status line is written reaches the wire; a later
WriteHeader call is ignored, and a Write without a prior WriteHeader
implies status 200. -/

/-- ResponseWriter state: the mutable header map, the status line together
with the header snapshot once written, and the body text. -/
structure Writer where
  pending : List (String × String)
  sent : Option (Nat × List (String × String))
  body : List Char
  deriving DecidableEq

/-- A fresh writer. -/
def Writer.init : Writer := { pending := [], sent := none, body := [] }

/-- Header().Set (stdlib model): replaces the key's value in the map. -/
def Writer.setHeader (w : Writer) (k v : String) : Writer :=
  { w with pending := w.pending.filter (fun p => !(p.1 == k)) ++ [(k, v)] }

/-- WriteHeader (stdlib model): the first call snapshots the map with the
code; later calls are ignored. -/
def Writer.writeHeader (w : Writer) (code : Nat) : Writer :=
  match w.sent with
  | some _ => w
  | none => { w with sent := some (code, w.pending) }

/-- Write / io.WriteString (stdlib model): an implicit 200 on first use,
then the bytes are appended to the body. -/
def Writer.writeString (w : Writer) (s : String) : Writer :=
  let w := w.writeHeader 200
  { w with body := w.body ++ s.data }

/-- Effective status line: 200 when the handler returned without ever
writing a header. -/
def Writer.status (w : Writer) : Nat := (w.sent.map Prod.fst).getD 200

/-- Headers actually sent: the snapshot taken at header-write time, else
the map at handler return. -/
def Writer.sentHeaders (w : Writer) : List (String × String) :=
  (w.sent.map Prod.snd).getD w.pending

/-- Look a key up among sent headers. -/
def lookupHeader (hs : List (String × String)) (k : String) : Option String :=
  (hs.find? (fun p => p.1 == k)).map Prod.snd

/-! ## StatusHandler (handlers.go) -/

/-- The literal body the 406 branch writes (JSON text). -/
def notAcceptableBody : String :=
  "\x7b\"message\": \"Client did not request a supported media type.\", \"accept\": [\"image/webp\", \"image/svg+xml\", \"image/jpeg\", \"image/png\", \"image/*\"]\x7d"

/-- The literal body the 418 branch writes (ASCII art). -/
def teapotBody : String :=
  "\n    -=[ teapot ]=-\n\n       _...._\n     .'  _ _ '.\n    | .\"  ^  \". _,\n    \\_;'\"---\"'|//\n      |       ;/\n      \\_     _/\n        '\"\"\"'\n"

/-- StatusHandler (handlers.go), run on a fresh writer.  The switch covers
exactly 301, 302, 303, 305 and 307 (Location), 401 (WWW-Authenticate), and
402, 406 and 418 (status, body, and for 402/418 a header map change made
after the status was written, which never reaches the wire); every other
code is written through unchanged with an empty body. -/
def StatusHandler (code : Nat) : Writer :=
  let w := Writer.init
  if code = 301 ∨ code = 302 ∨ code = 303 ∨ code = 305 ∨ code = 307 then
    (w.setHeader "Location" "/redirect/1").writeHeader code
  else if code = 401 then
    (w.setHeader "WWW-Authenticate" "Basic realm=\"Fake Realm\"").writeHeader code
  else if code = 402 then
    ((w.writeHeader code).writeString "Fuck you, pay me!").setHeader
      "x-more-info" "http://vimeo.com/22053820"
  else if code = 406 then
    (w.writeHeader code).writeString notAcceptableBody
  else if code = 418 then
    ((w.writeHeader code).setHeader
      "x-more-info" "http://tools.ietf.org/html/rfc2324").writeString teapotBody
  else
    w.writeHeader code

/-! ## BytesHandler (handlers.go) -/

/-- One rnd.Read into the `make([]byte, BinaryChunkSize)` buffer: the i-th
chunk of the generator seeded with seed.  The generator itself (math/rand)
is abstracted as the byte function rndByte; Read never fails and always
fills the whole buffer, so a chunk has exactly BinaryChunkSize entries. -/
def rndChunk (rndByte : Int → Nat → Nat → Nat) (seed : Int) (i : Nat) : List Nat :=
  (List.range BinaryChunkSize).map (rndByte seed i)

/-- The write loop of BytesHandler: as long as n bytes remain, read a
chunk; a full chunk is written whole, a final short chunk is truncated to
the remaining count. -/
def bytesLoop (chunk : Nat → List Nat) (n i : Nat) : List Nat :=
  if n = 0 then []
  else if BinaryChunkSize ≤ n then
    chunk i ++ bytesLoop chunk (n - BinaryChunkSize) (i + 1)
  else (chunk i).take n
termination_by n
decreasing_by
  have hB : 0 < BinaryChunkSize := by norm_num [BinaryChunkSize]
  omega

/-- The inputs BytesHandler reads: the route counter n, the seed query
parameter ("" when absent) and the clock value `time.Now().UnixNano()`. -/
structure BytesArgs where
  n : Nat
  seedStr : String
  nowNanos : Int
  deriving DecidableEq

/-- Seed selection of BytesHandler: the seed parameter when nonempty,
otherwise the current time rendered and re-parsed. -/
def bytesSeed (a : BytesArgs) : Int :=
  if a.seedStr = "" then goParseIntDef (toString a.nowNanos)
  else goParseIntDef a.seedStr

/-- The finished /bytes response: the handler never writes a header, so
the status is the implicit 200. -/
structure BytesResponse where
  status : Nat
  body : List Nat
  deriving DecidableEq

/-- BytesHandler (handlers.go): n pseudo-random bytes, streamed through
the BinaryChunkSize buffer. -/
def BytesHandler (rndByte : Int → Nat → Nat → Nat) (a : BytesArgs) : BytesResponse :=
  { status := 200, body := bytesLoop (rndChunk rndByte (bytesSeed a)) a.n 0 }

/-! ## DripHandler (handlers.go) -/

/-- writeErrorJSON (util.go): 500 (ignored when the status line is already
out) and the error envelope; the JSON serialization is abbreviated to the
wrapped message. -/
def writeErrorJSONW (w : Writer) (msg : String) : Writer :=
  (w.writeHeader 500).writeString msg

/-- The drip query parameters: code and delay are optional ("" when
absent); duration and numbytes are bound by the route patterns
`\d+(\.\d+)?` and `\d+`. -/
structure DripArgs where
  codeStr : String
  delayStr : String
  durationStr : String
  numbytesStr : String
  deriving DecidableEq

/-- The drip write loop: one single-byte write of '*' per remaining
count. -/
def dripWrites (w : Writer) : Nat → Writer
  | 0 => w
  | k + 1 => dripWrites (w.writeString "*") k

/-- How a drip request ends: an early return after a parse failure, the
run-time panic of the integer division `duration / numbytes` when numbytes
is 0, or the finished writer with the per-byte interval in nanoseconds. -/
inductive DripOutcome where
  | earlyError (w : Writer)
  | divisionByZero (w : Writer)
  | finished (w : Writer) (intervalNs : Nat)
  deriving DecidableEq

/-- DripHandler (handlers.go): optional status code (parse failure: error
envelope and return), optional initial delay (likewise), then
`t := time.Second * time.Duration(durationSec) / time.Duration(numBytes)`
— an integer division that panics when numBytes = 0 — and numBytes writes
of one '*' each, sleeping t in between.  `time.Duration(durationSec)`
truncates the parsed duration to whole seconds. -/
def DripHandler (a : DripArgs) : DripOutcome :=
  let durationSec : ℚ := (goParseDecimal a.durationStr).getD 0
  let numBytes : Nat := ((goAtoi a.numbytesStr).getD 0).toNat
  let w0 := Writer.init
  let step1 : Writer ⊕ Writer :=
    if a.codeStr = "" then Sum.inr w0
    else
      match goAtoi a.codeStr with
      | none => Sum.inl (writeErrorJSONW w0 "failed to parse 'code'")
      | some c => Sum.inr (w0.writeHeader c.toNat)
  match step1 with
  | Sum.inl w => DripOutcome.earlyError w
  | Sum.inr w1 =>
    let step2 : Writer ⊕ Writer :=
      if a.delayStr = "" then Sum.inr w1
      else
        match goParseDecimal a.delayStr with
        | none => Sum.inl (writeErrorJSONW w1 "failed to parse 'delay'")
        | some _ => Sum.inr w1
    match step2 with
    | Sum.inl w => DripOutcome.earlyError w
    | Sum.inr w2 =>
      if numBytes = 0 then DripOutcome.divisionByZero w2
      else
        DripOutcome.finished (dripWrites w2 numBytes)
          (second * (Int.floor durationSec).toNat / numBytes)

/-! ## PostHandler (handlers.go) -/

/-- A generic JSON value: the target of `json.Unmarshal(data, &jsonPayload)`
with an `interface` payload. -/
inductive JsonValue where
  | null
  | bool (b : Bool)
  | num (q : ℚ)
  | str (s : String)
  | arr (elems : List JsonValue)
  | obj (fields : List (String × JsonValue))

/-- postResponse (structs.go).  GetHandler's fields plus the raw body, the
never-assigned Files and Form maps (Go zero value nil) and the decoded
JSON payload (nil unless the body was parsed). -/
structure PostResponse where
  headers : List (String × String)
  origin : String
  url : String
  args : List (String × FlatValue)
  data : String
  files : Option (List (String × String))
  form : Option (List (String × FlatValue))
  json : Option JsonValue

/-- How a /post request ends: the 500 error envelope of writeErrorJSON, or
200 with the post envelope. -/
inductive PostResult where
  | errorEnvelope (status : Nat) (message : String)
  | ok (status : Nat) (response : PostResponse)

/-- PostHandler (handlers.go).  parseData is modelled as the request body
string (reading cannot fail in the model); json.Unmarshal is a parameter
standing for the stdlib decoder: `unmarshal b = none` exactly when b is
not valid JSON.  When the Content-Type contains "json" and the body fails
to parse, writeErrorJSON answers 500 with the wrapped message; otherwise
the envelope echoes the request, with URL, Files and Form left at their
zero values. -/
def PostHandler (unmarshal : String → Option JsonValue) (r : Request) : PostResult :=
  let data := r.body
  let envelope : Option JsonValue → PostResponse := fun j =>
    { headers := getHeaders r.headers
      origin := splitHost r.remoteAddr
      url := ""
      args := flattenValues r.query
      data := data
      files := none
      form := none
      json := j }
  if strContains (headerGet r.headers "Content-Type") "json" then
    match unmarshal data with
    | none => PostResult.errorEnvelope 500 "failed to read body"
    | some j => PostResult.ok 200 (envelope (some j))
  else PostResult.ok 200 (envelope none)

/-! ## Concrete sample inputs (used to instantiate universal statements) -/

/-- A plain GET request: no conditional headers, no JSON content type, a
query with one repeated and one single key. -/
def samplePlainRequest : Request :=
  { remoteAddr := "203.0.113.5:443"
    headers := [("Accept", ["*/*"])]
    query := [("k", ["v1", "v2"]), ("j", ["w"])]
    body := "" }

/-- A conditional request carrying If-None-Match. -/
def sampleConditionalRequest : Request :=
  { remoteAddr := "203.0.113.5:443"
    headers := [("If-None-Match", ["some-etag"])]
    query := []
    body := "" }

/-- A POST request with a JSON content type and a body that is not JSON. -/
def sampleJsonRequest : Request :=
  { remoteAddr := "203.0.113.5:443"
    headers := [("Content-Type", ["application/json"])]
    query := []
    body := "not json" }

/-- The post envelope PostHandler builds for samplePlainRequest. -/
def samplePostResponse : PostResponse :=
  { headers := getHeaders samplePlainRequest.headers
    origin := splitHost samplePlainRequest.remoteAddr
    url := ""
    args := flattenValues samplePlainRequest.query
    data := ""
    files := none
    form := none
    json := none }

/-- Drip arguments: no optional parameters, duration 2s, 3 bytes. -/
def sampleDripArgs : DripArgs :=
  { codeStr := "", delayStr := "", durationStr := "2", numbytesStr := "3" }

/-- Drip arguments with numbytes = 0. -/
def sampleDripZeroArgs : DripArgs :=
  { codeStr := "", delayStr := "", durationStr := "2", numbytesStr := "0" }

/-! ## Helper lemmas -/

/-- The hop count of the redirect chain is max n 1. -/
theorem redirectHops_eq_max (n : Nat) : redirectHops n = max n 1 := by
  induction n using Nat.strong_induction_on with
  | _ n ih =>
    rw [redirectHops]
    by_cases h : n ≤ 1
    · rw [if_pos h]; omega
    · rw [if_neg h, ih (n - 1) (by omega)]; omega

/-- Writing the status line does not change the body. -/
theorem writeHeader_body (w : Writer) (c : Nat) : (w.writeHeader c).body = w.body := by
  unfold Writer.writeHeader
  cases w.sent <;> rfl

/-- Write appends to the body. -/
theorem writeString_body (w : Writer) (s : String) :
    (w.writeString s).body = w.body ++ s.data := by
  show (w.writeHeader 200).body ++ s.data = w.body ++ s.data
  rw [writeHeader_body]

/-- The drip loop appends exactly k stars to the body. -/
theorem dripWrites_body (w : Writer) (k : Nat) :
    (dripWrites w k).body = w.body ++ List.replicate k '*' := by
  induction k generalizing w with
  | zero => simp [dripWrites]
  | succ k ih =>
    rw [dripWrites, ih, writeString_body]
    simp [List.replicate_succ]

/-- bytesLoop writes the full chunks in order, then the truncated last
chunk. -/
theorem bytesLoop_eq_flatten (chunk : Nat → List Nat) (n i : Nat) :
    bytesLoop chunk n i =
      ((List.range (n / BinaryChunkSize)).map (fun k => chunk (i + k))).flatten ++
        (chunk (i + n / BinaryChunkSize)).take (n % BinaryChunkSize) := by
  induction n using Nat.strong_induction_on generalizing i with
  | _ n ih =>
    rw [bytesLoop]
    by_cases h0 : n = 0
    · subst h0
      simp
    · rw [if_neg h0]
      by_cases h1 : BinaryChunkSize ≤ n
      · rw [if_pos h1]
        have hB : 0 < BinaryChunkSize := by norm_num [BinaryChunkSize]
        have hdiv : n / BinaryChunkSize = (n - BinaryChunkSize) / BinaryChunkSize + 1 :=
          Nat.div_eq_sub_div hB h1
        have hmod : n % BinaryChunkSize = (n - BinaryChunkSize) % BinaryChunkSize :=
          Nat.mod_eq_sub_mod h1
        have hfun : (fun k => chunk (i + 1 + k)) =
            ((fun k => chunk (i + k)) ∘ Nat.succ) := by
          funext k
          exact congrArg chunk (by omega)
        rw [ih (n - BinaryChunkSize) (by omega) (i + 1), hdiv, hmod,
          List.range_succ_eq_map, hfun, List.map_cons, List.map_map,
          List.flatten_cons, List.append_assoc,
          show i + 1 + (n - BinaryChunkSize) / BinaryChunkSize =
            i + ((n - BinaryChunkSize) / BinaryChunkSize + 1) from by omega]
        rfl
      · rw [if_neg h1]
        have hd : n / BinaryChunkSize = 0 := Nat.div_eq_of_lt (by omega)
        have hm : n % BinaryChunkSize = n := Nat.mod_eq_of_lt (by omega)
        simp [hd, hm]

/-- bytesLoop writes exactly n bytes when every chunk fills the buffer. -/
theorem bytesLoop_length (chunk : Nat → List Nat)
    (hc : ∀ j, (chunk j).length = BinaryChunkSize) (n i : Nat) :
    (bytesLoop chunk n i).length = n := by
  rw [bytesLoop_eq_flatten chunk n i]
  have hBpos : 0 < BinaryChunkSize := by norm_num [BinaryChunkSize]
  have hlt : n % BinaryChunkSize < BinaryChunkSize := Nat.mod_lt _ hBpos
  simp only [List.length_append, List.length_flatten, List.map_map,
    List.length_take]
  have hmap : (List.range (n / BinaryChunkSize)).map
      (List.length ∘ fun k => chunk (i + k)) =
      (List.range (n / BinaryChunkSize)).map (fun _ => BinaryChunkSize) := by
    apply List.map_congr_left
    intro a _
    simp [Function.comp, hc]
  rw [hmap, List.map_const', List.sum_replicate, List.length_range, smul_eq_mul]
  have hmin : n % BinaryChunkSize ⊓ (chunk (i + n / BinaryChunkSize)).length =
      n % BinaryChunkSize := by
    rw [hc]
    exact inf_eq_left.mpr hlt.le
  rw [hmin]
  have h1 := Nat.div_add_mod n BinaryChunkSize
  have h2 : n / BinaryChunkSize * BinaryChunkSize =
      BinaryChunkSize * (n / BinaryChunkSize) := Nat.mul_comm _ _
  omega

/-! ## Claim theorems -/

/-- C1: a request to /redirect/n answers 302 with Location /get when
n ≤ 1 and /redirect/(n-1) otherwise; the location agrees with the counter
step relation, the counter decreases by exactly 1 per hop, and iterating
the step from counter n reaches /get after exactly max(n,1) hops. -/
theorem redirect_chain_spec (n : Nat) :
    (RedirectHandler n).status = 302 ∧
    (n ≤ 1 → (RedirectHandler n).location = "/get") ∧
    (2 ≤ n → (RedirectHandler n).location = "/redirect/" ++ toString (n - 1)) ∧
    (RedirectHandler n).location =
      (match redirectNext n with
        | none => "/get"
        | some m => "/redirect/" ++ toString m) ∧
    (2 ≤ n → redirectNext n = some (n - 1)) ∧
    redirectHops n = max n 1 := by
  refine ⟨rfl, ?_, ?_, ?_, ?_, redirectHops_eq_max n⟩
  · intro h
    show redirectLocation n = "/get"
    unfold redirectLocation
    rw [if_pos h]
  · intro h
    show redirectLocation n = "/redirect/" ++ toString (n - 1)
    unfold redirectLocation
    rw [if_neg (by omega : ¬ n ≤ 1)]
  · show redirectLocation n = _
    unfold redirectLocation redirectNext
    by_cases h : n ≤ 1
    · rw [if_pos h, if_pos h]
    · rw [if_neg h, if_neg h]
  · intro h
    unfold redirectNext
    rw [if_neg (by omega : ¬ n ≤ 1)]

/-- C1 witness: the chain at counter 3. -/
theorem redirect_chain_spec_witness :
    (RedirectHandler 3).status = 302 ∧
    (RedirectHandler 3).location = "/redirect/" ++ toString (3 - 1) ∧
    redirectNext 3 = some (3 - 1) ∧
    redirectHops 3 = max 3 1 :=
  ⟨(redirect_chain_spec 3).1,
    (redirect_chain_spec 3).2.2.1 (by omega),
    (redirect_chain_spec 3).2.2.2.2.1 (by omega),
    (redirect_chain_spec 3).2.2.2.2.2⟩

/-- C4: flattening the query multimap keeps exactly the keys in order,
sends a single-valued key to its scalar value and a multi-valued key to
its whole value list, in the order the values appear. -/
theorem flattenValues_spec (uv : List (String × List String)) :
    (flattenValues uv).map Prod.fst = uv.map Prod.fst ∧
    (∀ k v, (k, [v]) ∈ uv → (k, FlatValue.scalar v) ∈ flattenValues uv) ∧
    (∀ k vs, (k, vs) ∈ uv → 2 ≤ vs.length →
      (k, FlatValue.list vs) ∈ flattenValues uv) := by
  refine ⟨?_, ?_, ?_⟩
  · simp [flattenValues]
  · intro k v hm
    exact List.mem_map.mpr ⟨(k, [v]), hm, rfl⟩
  · intro k vs hm h2
    refine List.mem_map.mpr ⟨(k, vs), hm, ?_⟩
    match vs, h2 with
    | a :: b :: t, _ => rfl

/-- C4 witness: the spec's example query k=v1&k=v2&j=w. -/
theorem flattenValues_spec_witness :
    (flattenValues [("k", ["v1", "v2"]), ("j", ["w"])]).map Prod.fst =
      [("k", ["v1", "v2"]), ("j", ["w"])].map Prod.fst ∧
    ("j", FlatValue.scalar "w") ∈ flattenValues [("k", ["v1", "v2"]), ("j", ["w"])] ∧
    ("k", FlatValue.list ["v1", "v2"]) ∈
      flattenValues [("k", ["v1", "v2"]), ("j", ["w"])] :=
  ⟨(flattenValues_spec [("k", ["v1", "v2"]), ("j", ["w"])]).1,
    (flattenValues_spec [("k", ["v1", "v2"]), ("j", ["w"])]).2.1 "j" "w" (by decide),
    (flattenValues_spec [("k", ["v1", "v2"]), ("j", ["w"])]).2.2 "k" ["v1", "v2"]
      (by decide) (by decide)⟩

/-- C8: with a nonempty If-Modified-Since or If-None-Match header, /cache
answers 304 with an empty body; otherwise it answers exactly what /get
answers for the same request. -/
theorem cache_spec (r : Request) :
    ((headerGet r.headers "If-Modified-Since" ≠ "" ∨
        headerGet r.headers "If-None-Match" ≠ "") →
      CacheHandler r = { status := 304, body := none }) ∧
    (headerGet r.headers "If-Modified-Since" = "" →
      headerGet r.headers "If-None-Match" = "" →
      CacheHandler r = GetHandler r) := by
  constructor
  · intro h
    unfold CacheHandler
    rw [if_pos h]
  · intro h1 h2
    unfold CacheHandler
    rw [if_neg (by simp [h1, h2])]

/-- C8 witness: a conditional and a plain request. -/
theorem cache_spec_witness :
    CacheHandler sampleConditionalRequest = { status := 304, body := none } ∧
    CacheHandler samplePlainRequest = GetHandler samplePlainRequest :=
  ⟨(cache_spec sampleConditionalRequest).1 (Or.inr (by decide)),
    (cache_spec samplePlainRequest).2 (by decide) (by decide)⟩

/-- C9: /delay/N sleeps min(N truncated to millisecond resolution,
DelayMax) nanoseconds — never more than DelayMax — and then answers
exactly what /get answers for the same request. -/
theorem delay_spec (nStr : String) (r : Request) (q : ℚ)
    (hq : goParseDecimal nStr = some q) :
    (DelayHandler nStr r).sleepNs =
      min (millisecond * (Int.floor (q * 1000)).toNat) DelayMax ∧
    (DelayHandler nStr r).sleepNs ≤ DelayMax ∧
    (DelayHandler nStr r).response = GetHandler r := by
  have hd : DelayHandler nStr r =
      { sleepNs :=
          if millisecond * (Int.floor (q * 1000)).toNat > DelayMax then DelayMax
          else millisecond * (Int.floor (q * 1000)).toNat
        response := GetHandler r } := by
    unfold DelayHandler
    rw [hq]
    simp only [Option.getD_some]
  rw [hd]
  refine ⟨?_, ?_, rfl⟩ <;> dsimp only <;>
    by_cases h : millisecond * (Int.floor (q * 1000)).toNat > DelayMax
  · rw [if_pos h]; omega
  · rw [if_neg h]; omega
  · rw [if_pos h]
  · rw [if_neg h]; omega

/-- C9 witness: /delay/0.5 on the sample request. -/
theorem delay_spec_witness :
    goParseDecimal "0.5" = some (mkRat 5 10) ∧
    ((DelayHandler "0.5" samplePlainRequest).sleepNs =
        min (millisecond * (Int.floor ((mkRat 5 10 : ℚ) * 1000)).toNat) DelayMax ∧
      (DelayHandler "0.5" samplePlainRequest).sleepNs ≤ DelayMax ∧
      (DelayHandler "0.5" samplePlainRequest).response = GetHandler samplePlainRequest) :=
  ⟨by decide, delay_spec "0.5" samplePlainRequest (mkRat 5 10) (by decide)⟩

/-- C10: the /get envelope's url field is always the empty string, and
every post envelope the handler emits leaves url at "" and files and form
at null — the structs declare these fields but no handler assigns them. -/
theorem unassigned_fields_spec (r : Request) (unmarshal : String → Option JsonValue)
    (st : Nat) (resp : PostResponse)
    (h : PostHandler unmarshal r = PostResult.ok st resp) :
    (getResponseOf r).url = "" ∧
    resp.url = "" ∧ resp.files = none ∧ resp.form = none := by
  refine ⟨rfl, ?_⟩
  simp only [PostHandler] at h
  split at h
  · split at h
    · exact absurd h (by simp)
    · cases h
      exact ⟨rfl, rfl, rfl⟩
  · cases h
    exact ⟨rfl, rfl, rfl⟩

/-- C10 witness: the sample plain POST. -/
theorem unassigned_fields_spec_witness :
    (getResponseOf samplePlainRequest).url = "" ∧
    samplePostResponse.url = "" ∧ samplePostResponse.files = none ∧
      samplePostResponse.form = none :=
  unassigned_fields_spec samplePlainRequest (fun _ => none) 200 samplePostResponse rfl

/-- C2: for every n and every seed source, the /bytes body is exactly n
bytes — the full BinaryChunkSize chunks in order followed by the
truncated last chunk — under the implicit 200 status; for n = 0 the loop
is never entered and the body is empty. -/
theorem bytes_exact_length_spec (rndByte : Int → Nat → Nat → Nat) (a : BytesArgs) :
    (BytesHandler rndByte a).status = 200 ∧
    (BytesHandler rndByte a).body.length = a.n ∧
    (BytesHandler rndByte a).body =
      ((List.range (a.n / BinaryChunkSize)).map
          (rndChunk rndByte (bytesSeed a))).flatten ++
        (rndChunk rndByte (bytesSeed a) (a.n / BinaryChunkSize)).take
          (a.n % BinaryChunkSize) ∧
    (a.n = 0 → (BytesHandler rndByte a).body = []) := by
  have hc : ∀ j, (rndChunk rndByte (bytesSeed a) j).length = BinaryChunkSize := by
    intro j
    simp [rndChunk]
  refine ⟨rfl, bytesLoop_length _ hc a.n 0, ?_, ?_⟩
  · show bytesLoop (rndChunk rndByte (bytesSeed a)) a.n 0 = _
    have hf : (fun k => rndChunk rndByte (bytesSeed a) (0 + k)) =
        rndChunk rndByte (bytesSeed a) := by
      funext k
      exact congrArg _ (Nat.zero_add k)
    rw [bytesLoop_eq_flatten, hf, Nat.zero_add]
  · intro h0
    show bytesLoop (rndChunk rndByte (bytesSeed a)) a.n 0 = []
    rw [h0, bytesLoop]
    rfl

/-- C3: with a nonempty seed parameter the /bytes response is a function
of n and the seed alone: two invocations at different clock readings
coincide byte for byte. -/
theorem bytes_seed_deterministic (rndByte : Int → Nat → Nat → Nat) (n : Nat)
    (s : String) (now1 now2 : Int) (hs : s ≠ "") :
    BytesHandler rndByte ⟨n, s, now1⟩ = BytesHandler rndByte ⟨n, s, now2⟩ := by
  simp [BytesHandler, bytesSeed, hs]

/-- C3 witness: seed "42" at clock readings 1 and 2. -/
theorem bytes_seed_deterministic_witness :
    ("42" : String) ≠ "" ∧
    BytesHandler (fun _ _ _ => 0) ⟨3, "42", 1⟩ =
      BytesHandler (fun _ _ _ => 0) ⟨3, "42", 2⟩ :=
  ⟨by decide, bytes_seed_deterministic (fun _ _ _ => 0) 3 "42" 1 2 (by decide)⟩

/-- C5 counterexample: 308 Permanent Redirect lies in the 3xx redirect
family, yet StatusHandler falls through to the default branch for it —
the status code is passed through but no Location header is sent. -/
theorem status_redirect_counterexample :
    (300 ≤ 308 ∧ 308 ≤ 399) ∧
    (StatusHandler 308).status = 308 ∧
    lookupHeader (StatusHandler 308).sentHeaders "Location" = none :=
  ⟨⟨by omega, by omega⟩, rfl, rfl⟩

/-- C5 (amended): exactly the five switch codes 301, 302, 303, 305 and
307 set Location: /redirect/1 and pass the code through as the status;
the remaining 3xx redirect-family codes 300, 304, 306 and 308 pass the
code through with no Location header; 401 sets the WWW-Authenticate
challenge. -/
theorem status_spec_amended (code : Nat)
    (h : code = 301 ∨ code = 302 ∨ code = 303 ∨ code = 305 ∨ code = 307) :
    lookupHeader (StatusHandler code).sentHeaders "Location" = some "/redirect/1" ∧
    (StatusHandler code).status = code ∧
    (∀ c, c = 300 ∨ c = 304 ∨ c = 306 ∨ c = 308 →
      (StatusHandler c).status = c ∧
      lookupHeader (StatusHandler c).sentHeaders "Location" = none) ∧
    lookupHeader (StatusHandler 401).sentHeaders "WWW-Authenticate" =
      some "Basic realm=\"Fake Realm\"" ∧
    (StatusHandler 401).status = 401 := by
  have hrest : ∀ c, c = 300 ∨ c = 304 ∨ c = 306 ∨ c = 308 →
      (StatusHandler c).status = c ∧
      lookupHeader (StatusHandler c).sentHeaders "Location" = none := by
    intro c hc
    rcases hc with hc | hc | hc | hc <;> subst hc <;> exact ⟨rfl, rfl⟩
  rcases h with h | h | h | h | h <;> subst h <;> exact ⟨rfl, rfl, hrest, rfl, rfl⟩

/-- C5 witness: codes 302 and 401, and the pass-through at 304. -/
theorem status_spec_amended_witness :
    lookupHeader (StatusHandler 302).sentHeaders "Location" = some "/redirect/1" ∧
    (StatusHandler 302).status = 302 ∧
    ((StatusHandler 304).status = 304 ∧
      lookupHeader (StatusHandler 304).sentHeaders "Location" = none) ∧
    lookupHeader (StatusHandler 401).sentHeaders "WWW-Authenticate" =
      some "Basic realm=\"Fake Realm\"" ∧
    (StatusHandler 401).status = 401 :=
  ⟨(status_spec_amended 302 (Or.inr (Or.inl rfl))).1,
    (status_spec_amended 302 (Or.inr (Or.inl rfl))).2.1,
    (status_spec_amended 302 (Or.inr (Or.inl rfl))).2.2.1 304 (Or.inr (Or.inl rfl)),
    (status_spec_amended 302 (Or.inr (Or.inl rfl))).2.2.2.1,
    (status_spec_amended 302 (Or.inr (Or.inl rfl))).2.2.2.2⟩

/-- C6: once the optional code and delay parameters are absent or parse,
the drip division-by-zero branch is reached exactly when numbytes is 0,
and with numbytes ≥ 1 the per-byte interval duration/numbytes is well
defined and the handler finishes having performed exactly numbytes
single-byte writes of '*'. -/
theorem drip_spec (a : DripArgs) (numBytes : Nat)
    (hn : numBytes = ((goAtoi a.numbytesStr).getD 0).toNat)
    (hcode : a.codeStr = "" ∨ (goAtoi a.codeStr).isSome = true)
    (hdelay : a.delayStr = "" ∨ (goParseDecimal a.delayStr).isSome = true) :
    ((∃ w, DripHandler a = DripOutcome.divisionByZero w) ↔ numBytes = 0) ∧
    (1 ≤ numBytes →
      ∃ w, DripHandler a =
          DripOutcome.finished w
            (second * (Int.floor ((goParseDecimal a.durationStr).getD 0)).toNat /
              numBytes) ∧
        w.body = List.replicate numBytes '*') := by
  obtain ⟨w2, hw2body, hkey⟩ : ∃ w2, w2.body = [] ∧ DripHandler a =
      (if numBytes = 0 then DripOutcome.divisionByZero w2
       else DripOutcome.finished (dripWrites w2 numBytes)
        (second * (Int.floor ((goParseDecimal a.durationStr).getD 0)).toNat /
          numBytes)) := by
    by_cases hc : a.codeStr = ""
    · by_cases hd : a.delayStr = ""
      · refine ⟨Writer.init, rfl, ?_⟩
        simp only [DripHandler, hc, hd, reduceIte]
        rw [hn]
      · obtain ⟨d, hdv⟩ := Option.isSome_iff_exists.mp ((or_iff_right hd).mp hdelay)
        refine ⟨Writer.init, rfl, ?_⟩
        simp only [DripHandler, hc, reduceIte, if_neg hd, hdv]
        rw [hn]
    · obtain ⟨c, hcv⟩ := Option.isSome_iff_exists.mp ((or_iff_right hc).mp hcode)
      by_cases hd : a.delayStr = ""
      · refine ⟨Writer.init.writeHeader c.toNat, by rw [writeHeader_body]; rfl, ?_⟩
        simp only [DripHandler, if_neg hc, hcv, hd, reduceIte]
        rw [hn]
      · obtain ⟨d, hdv⟩ := Option.isSome_iff_exists.mp ((or_iff_right hd).mp hdelay)
        refine ⟨Writer.init.writeHeader c.toNat, by rw [writeHeader_body]; rfl, ?_⟩
        simp only [DripHandler, if_neg hc, hcv, if_neg hd, hdv]
        rw [hn]
  refine ⟨⟨?_, ?_⟩, ?_⟩
  · rintro ⟨w, hw⟩
    by_contra hne
    rw [hkey, if_neg hne] at hw
    exact DripOutcome.noConfusion hw
  · intro h0
    exact ⟨w2, by rw [hkey, if_pos h0]⟩
  · intro h1
    refine ⟨dripWrites w2 numBytes, ?_, ?_⟩
    · rw [hkey, if_neg (by omega)]
    · rw [dripWrites_body, hw2body]
      rfl

/-- C6 witness: duration 2, numbytes 3 finishes with three stars at
interval 2s/3; numbytes 0 hits the division by zero. -/
theorem drip_spec_witness :
    (((∃ w, DripHandler sampleDripArgs = DripOutcome.divisionByZero w) ↔ 3 = 0) ∧
      (1 ≤ 3 →
        ∃ w, DripHandler sampleDripArgs =
            DripOutcome.finished w
              (second *
                (Int.floor ((goParseDecimal sampleDripArgs.durationStr).getD 0)).toNat /
                3) ∧
          w.body = List.replicate 3 '*')) ∧
    ((∃ w, DripHandler sampleDripZeroArgs = DripOutcome.divisionByZero w) ↔ 0 = 0) :=
  ⟨drip_spec sampleDripArgs 3 (by decide) (Or.inl rfl) (Or.inl rfl),
    (drip_spec sampleDripZeroArgs 0 (by decide) (Or.inl rfl) (Or.inl rfl)).1⟩

/-- C7: under a Content-Type containing "json", an unparseable body makes
/post answer the 500 error envelope and no post envelope; without "json"
in the Content-Type the body is never parsed — the response does not
depend on the decoder at all — and the envelope's json field is null. -/
theorem post_json_spec (unmarshal : String → Option JsonValue) (r : Request) :
    (strContains (headerGet r.headers "Content-Type") "json" = true →
      unmarshal r.body = none →
      PostHandler unmarshal r = PostResult.errorEnvelope 500 "failed to read body") ∧
    (strContains (headerGet r.headers "Content-Type") "json" = false →
      (∃ resp, PostHandler unmarshal r = PostResult.ok 200 resp ∧ resp.json = none) ∧
      ∀ u2 : String → Option JsonValue, PostHandler unmarshal r = PostHandler u2 r) := by
  constructor
  · intro hct hu
    simp only [PostHandler]
    rw [if_pos hct, hu]
  · intro hct
    have hne : ¬ strContains (headerGet r.headers "Content-Type") "json" = true := by
      simp [hct]
    constructor
    · have h : PostHandler unmarshal r = PostResult.ok 200
          { headers := getHeaders r.headers
            origin := splitHost r.remoteAddr
            url := ""
            args := flattenValues r.query
            data := r.body
            files := none
            form := none
            json := none } := by
        simp only [PostHandler]
        rw [if_neg hne]
      exact ⟨_, h, rfl⟩
    · intro u2
      simp only [PostHandler]
      rw [if_neg hne, if_neg hne]

/-- C7 witness: a malformed JSON POST and a plain POST. -/
theorem post_json_spec_witness :
    strContains (headerGet sampleJsonRequest.headers "Content-Type") "json" = true ∧
    PostHandler (fun _ => none) sampleJsonRequest =
      PostResult.errorEnvelope 500 "failed to read body" ∧
    ((∃ resp, PostHandler (fun _ => none) samplePlainRequest =
        PostResult.ok 200 resp ∧ resp.json = none) ∧
      ∀ u2 : String → Option JsonValue,
        PostHandler (fun _ => none) samplePlainRequest =
          PostHandler u2 samplePlainRequest) :=
  ⟨by decide,
    (post_json_spec (fun _ => none) sampleJsonRequest).1 (by decide) rfl,
    (post_json_spec (fun _ => none) samplePlainRequest).2 (by decide)⟩

end GoHttpbin
